import Mathlib

/-!
Shallow embedding of the Windows GPU-interop core of agus-maps-flutter
(`AgusWglContextFactory.cpp`, `AgusVulkanContextFactory.cpp`,
`agus_maps_flutter_win.cpp`), together with theorems settling the claims
about the frame-transfer pipeline, resize paths, shared-texture lifecycle,
keep-alive countdown and frame-ready notification throttle.

Conventions of the embedding:
* machine integers (`int`, `GLint`) are modelled as `Int`; unsigned sizes
  used only as array extents are modelled as `Nat`;
* GPU objects (textures, OS handles) are modelled as `Option Nat`
  generation identifiers: `none` is a null handle or released COM pointer,
  `some k` is a live object with identity `k`;
* fallible platform calls (wglMakeCurrent, CreateTexture2D, GetSharedHandle,
  staging allocation, framebuffer-completeness check) are modelled by a
  record of boolean outcomes supplied as an environment, plus fresh
  identities for the objects the calls would allocate;
* pixel buffers are byte images `Nat → Nat → Fin 4 → Nat`: byte channel `c`
  of the pixel at column `x`, row `y`.
-/

namespace Agus

/-! ## Frame transfer: AgusWglContextFactory::CopyToSharedTexture

The CPU conversion step of the transfer pipeline.  The glReadPixels result
is an RGBA byte buffer whose row 0 is the bottom row of the image; the
staging destination is a BGRA byte buffer whose row 0 is the top row.
-/

/-- A byte image: channel `c` of the pixel at `(x, y)`.  For the source
(glReadPixels) buffer the channel order is R,G,B,A; for the destination
(staging) buffer it is B,G,R,A. -/
abbrev Img : Type := Nat → Nat → Fin 4 → Nat

/-- The per-pixel byte reorder performed by the copy loops:
`dstRow[x*4+0] = srcRow[x*4+2]`, `dstRow[x*4+1] = srcRow[x*4+1]`,
`dstRow[x*4+2] = srcRow[x*4+0]`, `dstRow[x*4+3] = srcRow[x*4+3]`
(RGBA bytes rewritten in BGRA byte order). -/
def swizzleIdx : Fin 4 → Fin 4
  | 0 => 2
  | 1 => 1
  | 2 => 0
  | 3 => 3

/-- Fast path of `CopyToSharedTexture` (rendered size equals target size):
for every `y < H` the destination row `y` is written from source row
`H - 1 - y` with the RGBA→BGRA byte reorder; bytes outside the `W × H`
rectangle keep whatever the mapped staging memory held. -/
def copyEqualSize (pixels : Img) (W H : Nat) (dst0 : Img) : Img :=
  fun x y c =>
    if x < W ∧ y < H then pixels x (H - 1 - y) (swizzleIdx c)
    else dst0 x y c

/-- Mismatch path of `CopyToSharedTexture` (rendered size differs from the
target size): first every destination pixel in `W × H` is cleared to
`memset 0` with the alpha byte then set to 255 (opaque black), then the
rendered `rw × rh` rectangle is copied to the top-left corner with the same
Y flip (relative to `rh`) and RGBA→BGRA byte reorder. -/
def copyMismatch (pixels : Img) (rw rh W H : Nat) (dst0 : Img) : Img :=
  fun x y c =>
    if x < W ∧ y < H then
      if x < rw ∧ y < rh then pixels x (rh - 1 - y) (swizzleIdx c)
      else if c = 3 then 255 else 0
    else dst0 x y c

/-- The CPU copy of `CopyToSharedTexture` after glReadPixels: the staging
image produced from the read-back buffer `pixels` of rendered size
`rw × rh`, for a target of size `W × H`, over prior staging contents
`dst0`.  Mirrors the `readWidth == m_width && readHeight == m_height`
branch selection of the source. -/
def copyToSharedTexture (pixels : Img) (rw rh W H : Nat) (dst0 : Img) : Img :=
  if rw = W ∧ rh = H then copyEqualSize pixels W H dst0
  else copyMismatch pixels rw rh W H dst0

/-! ## Shared-texture lifecycle: AgusWglContextFactory -/

/-- Observable state of `AgusWglContextFactory`: reported dimensions,
the D3D11 objects and OS shareable handle of the shared-texture manager,
and the GL attachment storage sizes plus the viewport/scissor rectangle of
the draw context. -/
structure WglFactoryState where
  width : Int
  height : Int
  sharedTexture : Option Nat
  stagingTexture : Option Nat
  sharedHandle : Option Nat
  renderTexW : Int
  renderTexH : Int
  depthW : Int
  depthH : Int
  viewportW : Int
  viewportH : Int
  scissorW : Int
  scissorH : Int
deriving DecidableEq, Repr

/-- Outcomes of the fallible platform calls made during a resize, plus the
identities of the objects a successful call would allocate. -/
structure ResizeEnv where
  makeCurrentOk : Bool
  fboComplete : Bool
  createTexOk : Bool
  exportHandleOk : Bool
  createStagingOk : Bool
  newTexId : Nat
  newHandle : Nat
  newStagingId : Nat
deriving DecidableEq, Repr

/-- `AgusWglContextFactory::CreateSharedTexture(w, h)`.  Closes the prior
OS handle and releases the prior shared and staging textures first, then
allocates the shared texture, exports its handle (`dxgiResource.As` and
`GetSharedHandle` folded into one outcome), and allocates the staging
texture; each failure returns `false` at that point.  `m_width`/`m_height`
are assigned only after every step succeeded. -/
def createSharedTexture (env : ResizeEnv) (s : WglFactoryState) (w h : Int) :
    WglFactoryState × Bool :=
  let s1 := { s with sharedHandle := none, sharedTexture := none, stagingTexture := none }
  if ¬ env.createTexOk then (s1, false)
  else
    let s2 := { s1 with sharedTexture := some env.newTexId }
    if ¬ env.exportHandleOk then (s2, false)
    else
      let s3 := { s2 with sharedHandle := some env.newHandle }
      if ¬ env.createStagingOk then (s3, false)
      else ({ s3 with stagingTexture := some env.newStagingId, width := w, height := h }, true)

/-- `AgusWglContextFactory::SetSurfaceSize(w, h)` (under `m_mutex`).
Equal dimensions return immediately; a failed `wglMakeCurrent` returns with
nothing changed.  Otherwise the GL attachments are reallocated and
re-attached, the framebuffer-completeness check only logs
(`env.fboComplete` does not alter control flow), viewport and scissor are
set to the new size, `m_width`/`m_height` are assigned, and
`CreateSharedTexture` runs with its result ignored. -/
def setSurfaceSize (env : ResizeEnv) (s : WglFactoryState) (w h : Int) : WglFactoryState :=
  if s.width = w ∧ s.height = h then s
  else if ¬ env.makeCurrentOk then s
  else
    let s1 := { s with
      renderTexW := w, renderTexH := h, depthW := w, depthH := h,
      viewportW := w, viewportH := h, scissorW := w, scissorH := h }
    let s2 := { s1 with width := w, height := h }
    (createSharedTexture env s2 w h).1

/-- `AgusWglContextFactory::GetSharedTextureHandle()`: plain accessor. -/
def getSharedTextureHandle (s : WglFactoryState) : Option Nat :=
  s.sharedHandle

/-! ## Shared-texture lifecycle: AgusVulkanContextFactory -/

/-- Observable state of `AgusVulkanContextFactory`: dimensions, whether the
D3D11 device exists, and the D3D11 texture and NT shareable handle. -/
structure VkFactoryState where
  width : Nat
  height : Nat
  d3dDevice : Bool
  d3dTexture : Option Nat
  sharedHandle : Option Nat
deriving DecidableEq, Repr

/-- Outcomes of the fallible D3D11 calls in CreateSharedTexture of the Vulkan factory, with fresh identities for the allocations. -/
structure VkResizeEnv where
  createTexOk : Bool
  exportHandleOk : Bool
  newTexId : Nat
  newHandle : Nat
deriving DecidableEq, Repr

/-- `AgusVulkanContextFactory::CreateSharedTexture(w, h)`: fails if no
device; otherwise `CleanupTexture()` closes the prior handle and releases
the prior texture, then the texture is created and its NT handle exported;
dimensions are assigned only after both steps succeed. -/
def vkCreateSharedTexture (env : VkResizeEnv) (s : VkFactoryState) (w h : Nat) :
    VkFactoryState × Bool :=
  if ¬ s.d3dDevice then (s, false)
  else
    let s1 := { s with sharedHandle := none, d3dTexture := none }
    if ¬ env.createTexOk then (s1, false)
    else
      let s2 := { s1 with d3dTexture := some env.newTexId }
      if ¬ env.exportHandleOk then (s2, false)
      else ({ s2 with sharedHandle := some env.newHandle, width := w, height := h }, true)

/-- `AgusVulkanContextFactory::UpdateSurfaceSize(w, h)`: equal dimensions
return immediately; otherwise the shared texture is recreated (a failure is
only logged). -/
def updateSurfaceSize (env : VkResizeEnv) (s : VkFactoryState) (w h : Nat) : VkFactoryState :=
  if w = s.width ∧ h = s.height then s
  else (vkCreateSharedTexture env s w h).1

/-! ## Frame-ready notification: notifyFlutterFrameReady -/

/-- The process-wide notification state: `g_lastFrameNotification`
(milliseconds on the steady clock) and `g_frameNotificationPending`. -/
structure NotifyState where
  lastNotify : Int
  pending : Bool
deriving DecidableEq, Repr

/-- `kMinFrameInterval`: 16 milliseconds. -/
def kMinFrameIntervalMs : Int := 16

/-- `notifyFlutterFrameReady()` called at time `now`: returns the new state
and whether a notification was dispatched.  The trigger is suppressed when
less than 16 ms elapsed since the last dispatched notification, or when the
compare-exchange on the pending flag fails; only a dispatched notification
assigns `g_lastFrameNotification` (and the pending flag is cleared again
after the callback returns). -/
def notifyFlutterFrameReady (s : NotifyState) (now : Int) : NotifyState × Bool :=
  if now - s.lastNotify < kMinFrameIntervalMs then (s, false)
  else if s.pending then (s, false)
  else ({ lastNotify := now, pending := false }, true)

/-- Run `notifyFlutterFrameReady` on a sequence of trigger times, counting
dispatched notifications. -/
def notifyRun (s : NotifyState) : List Int → NotifyState × Nat
  | [] => (s, 0)
  | t :: ts =>
    let r := notifyFlutterFrameReady s t
    let rest := notifyRun r.1 ts
    (rest.1, (if r.2 then 1 else 0) + rest.2)

/-! ## Keep-alive countdown: Present on the draw contexts -/

/-- The keep-alive section of `AgusWglContext::Present()` on the draw
context (runs after `OnFrameReady()`): while `m_initialFrameCount > 0` it
is decremented and `RequestActiveFrame()` fires the keep-alive callback;
returns the new counter and whether the signal fired. -/
def wglPresentKeepAlive (c : Int) : Int × Bool :=
  if c > 0 then (c - 1, true) else (c, false)

/-- The corresponding section of `DrawVulkanContext::Present()`: while
`m_initialFrameCount > 0` it is decremented and `agus_notify_frame_ready()`
is invoked; returns the new counter and whether the signal fired. -/
def vkPresentInitialNotify (c : Int) : Int × Bool :=
  if c > 0 then (c - 1, true) else (c, false)

/-- `n` consecutive `Present()` calls on the WGL draw context starting from
keep-alive budget `c`: final budget and number of keep-alive signals. -/
def wglPresentRun : Int → Nat → Int × Nat
  | c, 0 => (c, 0)
  | c, n + 1 =>
    let r := wglPresentKeepAlive c
    let rest := wglPresentRun r.1 n
    (rest.1, (if r.2 then 1 else 0) + rest.2)

/-- `n` consecutive `Present()` calls on the Vulkan draw context starting
from budget `c`: final budget and number of initial-frame signals. -/
def vkPresentRun : Int → Nat → Int × Nat
  | c, 0 => (c, 0)
  | c, n + 1 =>
    let r := vkPresentInitialNotify c
    let rest := vkPresentRun r.1 n
    (rest.1, (if r.2 then 1 else 0) + rest.2)

/-! ## Context-current discipline: GetRendererName / GetRendererVersion -/

/-- The current WGL binding of the calling thread: the device context and GL context
currently bound (`wglGetCurrentDC` / `wglGetCurrentContext`), `none` for
no binding. -/
structure GlCurrent where
  dc : Option Nat
  glc : Option Nat
deriving DecidableEq, Repr

/-- Effect of `AgusWglContext::GetRendererName()` on the current binding
of the calling thread, for a context object with device context `hdc` and GL context
`glrc`: if the GL context differs from `glrc` it switches to
`(m_hdc, m_glrc)`, reads the string, and then — only when there was a
previous non-null context — switches to `(m_hdc, current)`; when the prior
context was null the own context is left current. -/
def getRendererNameCtx (hdc glrc : Nat) (s : GlCurrent) : GlCurrent :=
  if s.glc = some glrc then s
  else
    match s.glc with
    | some c => { dc := some hdc, glc := some c }
    | none => { dc := some hdc, glc := some glrc }

/-- Effect of `AgusWglContext::GetRendererVersion()` on the current
binding of the calling thread: identical save/switch/restore logic to
`GetRendererName`. -/
def getRendererVersionCtx (hdc glrc : Nat) (s : GlCurrent) : GlCurrent :=
  if s.glc = some glrc then s
  else
    match s.glc with
    | some c => { dc := some hdc, glc := some c }
    | none => { dc := some hdc, glc := some glrc }

/-! ## Concrete instances used by counterexamples and witnesses -/

/-- A rendered frame that is uniform grey but fully transparent:
every alpha byte (channel 3 of the RGBA buffer) is 0. -/
def srcTransparent : Img := fun _ _ c => if c = 3 then 0 else 200

/-- A source frame whose byte at channel `c` of pixel `(x, y)` is
`100·c + 10·x + y`, so every byte is distinguishable. -/
def srcNumbered : Img := fun x y c => 100 * (c : Nat) + 10 * x + y

/-- Staging memory holding 7 in every byte before the copy. -/
def dstPrior : Img := fun _ _ _ => 7

/-- A WGL factory state of a fully successful 800×600 generation
(texture 1, staging 1, OS handle 1). -/
def s800 : WglFactoryState :=
  { width := 800, height := 600,
    sharedTexture := some 1, stagingTexture := some 1, sharedHandle := some 1,
    renderTexW := 800, renderTexH := 600, depthW := 800, depthH := 600,
    viewportW := 800, viewportH := 600, scissorW := 800, scissorH := 600 }

/-- Resize environment in which the shared-texture allocation itself
fails (texture recreation failure) and everything else would succeed. -/
def envTexFail : ResizeEnv :=
  { makeCurrentOk := true, fboComplete := true, createTexOk := false,
    exportHandleOk := true, createStagingOk := true,
    newTexId := 2, newHandle := 2, newStagingId := 2 }

/-- Resize environment in which the shared texture is allocated but
exporting its OS handle fails. -/
def envExportFail : ResizeEnv :=
  { makeCurrentOk := true, fboComplete := true, createTexOk := true,
    exportHandleOk := false, createStagingOk := true,
    newTexId := 2, newHandle := 2, newStagingId := 2 }

/-- Resize environment in which the shared texture and its handle are
created but the staging-texture allocation fails. -/
def envStagingFail : ResizeEnv :=
  { makeCurrentOk := true, fboComplete := true, createTexOk := true,
    exportHandleOk := true, createStagingOk := false,
    newTexId := 2, newHandle := 2, newStagingId := 2 }

/-- Resize environment in which every platform call succeeds. -/
def envAllOk : ResizeEnv :=
  { makeCurrentOk := true, fboComplete := true, createTexOk := true,
    exportHandleOk := true, createStagingOk := true,
    newTexId := 2, newHandle := 2, newStagingId := 2 }

/-- A Vulkan factory state of a fully successful 800×600 generation. -/
def vk800 : VkFactoryState :=
  { width := 800, height := 600, d3dDevice := true,
    d3dTexture := some 1, sharedHandle := some 1 }

/-- Vulkan resize environment in which every call succeeds. -/
def vkEnvAllOk : VkResizeEnv :=
  { createTexOk := true, exportHandleOk := true, newTexId := 2, newHandle := 2 }

/-! ## Helper lemmas -/

/-- A suppressed trigger leaves the notification state unchanged. -/
lemma notify_suppressed_eq (s : NotifyState) (now : Int)
    (h : (notifyFlutterFrameReady s now).2 = false) :
    notifyFlutterFrameReady s now = (s, false) := by
  by_cases h1 : now - s.lastNotify < kMinFrameIntervalMs
  · simp [notifyFlutterFrameReady, h1]
  · by_cases h2 : s.pending
    · simp [notifyFlutterFrameReady, h1, h2]
    · simp [notifyFlutterFrameReady, h1, h2] at h

/-- A dispatched trigger sets the stored timestamp to the trigger time and
leaves the pending flag cleared. -/
lemma notify_dispatched_eq (s : NotifyState) (now : Int)
    (h : (notifyFlutterFrameReady s now).2 = true) :
    notifyFlutterFrameReady s now = ({ lastNotify := now, pending := false }, true) := by
  by_cases h1 : now - s.lastNotify < kMinFrameIntervalMs
  · simp [notifyFlutterFrameReady, h1] at h
  · by_cases h2 : s.pending
    · simp [notifyFlutterFrameReady, h1, h2] at h
    · simp [notifyFlutterFrameReady, h1, h2]

/-- Once the stored timestamp lies inside the 16 ms window, every further
trigger whose time lies inside the same window is suppressed and the state
is unchanged. -/
lemma notifyRun_window_suppressed (lo : Int) (ts : List Int) (s : NotifyState)
    (hts : ∀ t ∈ ts, lo ≤ t ∧ t < lo + 16) (hs : lo ≤ s.lastNotify) :
    notifyRun s ts = (s, 0) := by
  induction ts with
  | nil => rfl
  | cons t ts ih =>
    have ht := hts t (List.mem_cons_self t ts)
    have hstep : notifyFlutterFrameReady s t = (s, false) := by
      unfold notifyFlutterFrameReady kMinFrameIntervalMs
      have : t - s.lastNotify < 16 := by omega
      simp [this]
    simp only [notifyRun, hstep]
    have := ih (fun u hu => hts u (List.mem_cons_of_mem t hu))
    simp [this]

/-- If a run of triggers dispatched no notification, the notification
state (in particular the stored timestamp) is unchanged. -/
lemma notifyRun_zero_id (s : NotifyState) (ts : List Int)
    (h : (notifyRun s ts).2 = 0) : (notifyRun s ts).1 = s := by
  induction ts with
  | nil => rfl
  | cons t ts ih =>
    by_cases hd : (notifyFlutterFrameReady s t).2 = true
    · simp only [notifyRun, hd, if_true] at h
      omega
    · have hs := notify_suppressed_eq s t (by simpa using hd)
      simp only [notifyRun, hs] at h ⊢
      simp at h ⊢
      exact ih h

/-! ## Claim theorems -/

/-- Claim C2: when the rendered viewport equals the destination size
`(W, H)`, the copy into the staging buffer maps destination row `y`
(`0 ≤ y < H`) to source row `H - 1 - y` (Y flip) and rewrites the RGBA
bytes in BGRA order: destination byte 0 (B) takes source byte 2,
byte 1 (G) takes source byte 1, byte 2 (R) takes source byte 0, and
byte 3 (A) takes source byte 3, for every pixel of the frame. -/
theorem c2_full_frame_flip_swizzle (pixels dst0 : Img) (W H x y : Nat)
    (hx : x < W) (hy : y < H) :
    copyToSharedTexture pixels W H W H dst0 x y 0 = pixels x (H - 1 - y) 2 ∧
    copyToSharedTexture pixels W H W H dst0 x y 1 = pixels x (H - 1 - y) 1 ∧
    copyToSharedTexture pixels W H W H dst0 x y 2 = pixels x (H - 1 - y) 0 ∧
    copyToSharedTexture pixels W H W H dst0 x y 3 = pixels x (H - 1 - y) 3 := by
  have e0 : swizzleIdx 0 = 2 := by decide
  have e1 : swizzleIdx 1 = 1 := by decide
  have e2 : swizzleIdx 2 = 0 := by decide
  have e3 : swizzleIdx 3 = 3 := by decide
  simp [copyToSharedTexture, copyEqualSize, hx, hy, e0, e1, e2, e3]

/-- Witness for C2 at a concrete 3×2 frame and pixel (2, 1). -/
theorem c2_full_frame_flip_swizzle_witness :
    copyToSharedTexture srcNumbered 3 2 3 2 dstPrior 2 1 0 = srcNumbered 2 0 2 ∧
    copyToSharedTexture srcNumbered 3 2 3 2 dstPrior 2 1 1 = srcNumbered 2 0 1 ∧
    copyToSharedTexture srcNumbered 3 2 3 2 dstPrior 2 1 2 = srcNumbered 2 0 0 ∧
    copyToSharedTexture srcNumbered 3 2 3 2 dstPrior 2 1 3 = srcNumbered 2 0 3 :=
  c2_full_frame_flip_swizzle srcNumbered dstPrior 3 2 2 1 (by decide) (by decide)

/-- Claim C3: a resize call whose requested dimensions equal the current
surface size is a complete no-op in both `AgusWglContextFactory::
SetSurfaceSize` and `AgusVulkanContextFactory::UpdateSurfaceSize`: the
state (GL attachments, D3D11 textures, OS shareable handle, dimensions,
viewport/scissor) is returned unchanged, so handle identity is
preserved. -/
theorem c3_resize_same_size_noop (env : ResizeEnv) (s : WglFactoryState)
    (venv : VkResizeEnv) (vs : VkFactoryState) (w h : Int) (vw vh : Nat)
    (hw : s.width = w) (hh : s.height = h)
    (hvw : vs.width = vw) (hvh : vs.height = vh) :
    setSurfaceSize env s w h = s ∧ updateSurfaceSize venv vs vw vh = vs := by
  constructor
  · simp [setSurfaceSize, hw, hh]
  · simp [updateSurfaceSize, hvw, hvh]

/-- Witness for C3: resizing the 800×600 generation to 800×600 returns the
identical state in both factories. -/
theorem c3_resize_same_size_noop_witness :
    setSurfaceSize envAllOk s800 800 600 = s800 ∧
    updateSurfaceSize vkEnvAllOk vk800 800 600 = vk800 :=
  c3_resize_same_size_noop envAllOk s800 vkEnvAllOk vk800 800 600 800 600
    rfl rfl rfl rfl

/-- Claim C7: while a notification is in flight (the pending flag is set,
i.e. dispatched but the callback has not yet returned), any new trigger is
dropped rather than queued: the call returns without dispatching and
without changing any state. -/
theorem c7_pending_trigger_dropped (s : NotifyState) (now : Int)
    (hp : s.pending = true) :
    notifyFlutterFrameReady s now = (s, false) := by
  by_cases h1 : now - s.lastNotify < kMinFrameIntervalMs
  · simp [notifyFlutterFrameReady, h1]
  · simp [notifyFlutterFrameReady, h1, hp]

/-- Witness for C7: a trigger at time 100 with a notification in flight is
dropped. -/
theorem c7_pending_trigger_dropped_witness :
    notifyFlutterFrameReady { lastNotify := 0, pending := true } 100 =
      (({ lastNotify := 0, pending := true } : NotifyState), false) :=
  c7_pending_trigger_dropped { lastNotify := 0, pending := true } 100 rfl

/-- Claim C10: the stored last-notification timestamp is updated exactly
when a notification is dispatched: a dispatched trigger sets it to the
trigger time, a suppressed trigger (rate limit or pending flag) leaves the
whole state unchanged, and a run of triggers that dispatched nothing leaves
the state, hence the timestamp, unchanged — the throttle window is always
measured from the last dispatched notification. -/
theorem c10_timestamp_only_on_dispatch (s : NotifyState) (now : Int) :
    ((notifyFlutterFrameReady s now).2 = true →
      (notifyFlutterFrameReady s now).1.lastNotify = now) ∧
    ((notifyFlutterFrameReady s now).2 = false →
      (notifyFlutterFrameReady s now).1 = s) ∧
    (∀ ts : List Int, (notifyRun s ts).2 = 0 → (notifyRun s ts).1 = s) := by
  refine ⟨fun h => ?_, fun h => ?_, fun ts h => notifyRun_zero_id s ts h⟩
  · rw [notify_dispatched_eq s now h]
  · rw [notify_suppressed_eq s now h]

/-- Witness for C10: a trigger 5 ms after a dispatch is suppressed and
leaves the timestamp at 0; three suppressed triggers leave the state
unchanged. -/
theorem c10_timestamp_only_on_dispatch_witness :
    (notifyFlutterFrameReady { lastNotify := 0, pending := false } 5).1 =
      ({ lastNotify := 0, pending := false } : NotifyState) ∧
    (notifyRun { lastNotify := 0, pending := false } [3, 5, 9]).1 =
      ({ lastNotify := 0, pending := false } : NotifyState) :=
  ⟨(c10_timestamp_only_on_dispatch { lastNotify := 0, pending := false } 5).2.1 rfl,
   (c10_timestamp_only_on_dispatch { lastNotify := 0, pending := false } 5).2.2
     [3, 5, 9] rfl⟩

/-- Claim C8: starting from keep-alive budget `B ≥ 0`, a run of `n`
`Present()` calls on the draw context fires the keep-alive signal exactly
`min n B` times — one signal per call while the budget lasts, decrementing
it by one each time, so calls `B + 1, B + 2, …` fire nothing — in both the
WGL draw context and the Vulkan draw context (whose countdown invokes the
frame-ready notifier). -/
theorem c8_keepalive_budget_countdown (B : Int) (n : Nat) (hB : 0 ≤ B) :
    (wglPresentRun B n).2 = min n B.toNat ∧
    (vkPresentRun B n).2 = min n B.toNat := by
  induction n generalizing B with
  | zero => simp [wglPresentRun, vkPresentRun]
  | succ n ih =>
    by_cases hpos : 0 < B
    · have h1 := ih (B - 1) (by omega)
      have e : wglPresentKeepAlive B = (B - 1, true) := by
        simp [wglPresentKeepAlive, hpos]
      have e2 : vkPresentInitialNotify B = (B - 1, true) := by
        simp [vkPresentInitialNotify, hpos]
      simp only [wglPresentRun, vkPresentRun, e, e2, if_true]
      refine ⟨?_, ?_⟩
      · simp only [h1.1]
        omega
      · simp only [h1.2]
        omega
    · have hzero : B = 0 := by omega
      subst hzero
      have h1 := ih 0 le_rfl
      have e : wglPresentKeepAlive 0 = (0, false) := by
        simp [wglPresentKeepAlive]
      have e2 : vkPresentInitialNotify 0 = (0, false) := by
        simp [vkPresentInitialNotify]
      simp only [wglPresentRun, vkPresentRun, e, e2]
      refine ⟨?_, ?_⟩
      · simp [h1.1]
      · simp [h1.2]

/-- Witness for C8: with budget 3, five Present() calls fire the signal
exactly 3 times on both draw contexts. -/
theorem c8_keepalive_budget_countdown_witness :
    (wglPresentRun 3 5).2 = min 5 (Int.toNat 3) ∧
    (vkPresentRun 3 5).2 = min 5 (Int.toNat 3) :=
  c8_keepalive_budget_countdown 3 5 (by decide)

/-- Claim C6: for every sequence of frame-ready triggers whose times all
fall within one 16 ms window `[lo, lo + 16)`, at most one notification is
dispatched to the registered callback; a notification already issued within
the last 16 ms suppresses any further dispatch as a hard floor. -/
theorem c6_throttle_one_per_window (lo : Int) (ts : List Int) (s : NotifyState)
    (hts : ∀ t ∈ ts, lo ≤ t ∧ t < lo + 16) :
    (notifyRun s ts).2 ≤ 1 := by
  revert hts
  induction ts generalizing s with
  | nil =>
    intro _
    simp [notifyRun]
  | cons t ts ih =>
    intro hts
    have ht := hts t (List.mem_cons_self t ts)
    have htail : ∀ u ∈ ts, lo ≤ u ∧ u < lo + 16 :=
      fun u hu => hts u (List.mem_cons_of_mem t hu)
    by_cases hd : (notifyFlutterFrameReady s t).2 = true
    · have hstep := notify_dispatched_eq s t hd
      have hzero := notifyRun_window_suppressed lo ts
        { lastNotify := t, pending := false } htail ht.1
      simp [notifyRun, hstep, hzero]
    · have hstep := notify_suppressed_eq s t (by simpa using hd)
      simp only [notifyRun, hstep]
      simpa using ih s htail

/-- Witness for C6: four Present() triggers at 0, 5, 10 and 15 ms dispatch
at most one notification. -/
theorem c6_throttle_one_per_window_witness :
    (notifyRun { lastNotify := -100, pending := false } [0, 5, 10, 15]).2 ≤ 1 :=
  c6_throttle_one_per_window 0 [0, 5, 10, 15]
    { lastNotify := -100, pending := false } (by decide)

/-- Counterexample to claim C1 as stated: a 1×1 rendered viewport,
strictly smaller than the 2×2 target, whose single pixel is transparent
(source alpha byte 0) yields a destination pixel (0,0) whose alpha byte is
the copied source alpha 0, not 255 — the destination is not fully opaque at
every pixel, because the copy loop writes `dstRow[x*4+3] = srcRow[x*4+3]`
inside the rendered region. -/
theorem c1_counterexample :
    copyToSharedTexture srcTransparent 1 1 2 2 dstPrior 0 0 3 ≠ 255 := by
  decide

/-- Claim C1 (amended): for a transfer whose rendered viewport `(rw, rh)`
is strictly smaller than the target `(W, H)`, the pixels of the
`[0,rw)×[0,rh)` region exactly reproduce the rendered content subject to Y
flip and RGBA→BGRA byte reorder (alpha included, copied from the source);
every pixel of the target outside that region is cleared to opaque black
(B=G=R=0, A=255); consequently the whole destination is fully opaque
whenever the rendered content itself is fully opaque. -/
theorem c1_mismatch_copy_amended (pixels dst0 : Img) (rw rh W H : Nat)
    (hw : rw < W) (hh : rh < H) :
    (∀ x y, x < rw → y < rh → ∀ c : Fin 4,
      copyToSharedTexture pixels rw rh W H dst0 x y c =
        pixels x (rh - 1 - y) (swizzleIdx c)) ∧
    (∀ x y, x < W → y < H → ¬(x < rw ∧ y < rh) →
      copyToSharedTexture pixels rw rh W H dst0 x y 0 = 0 ∧
      copyToSharedTexture pixels rw rh W H dst0 x y 1 = 0 ∧
      copyToSharedTexture pixels rw rh W H dst0 x y 2 = 0 ∧
      copyToSharedTexture pixels rw rh W H dst0 x y 3 = 255) ∧
    ((∀ x y, pixels x y 3 = 255) →
      ∀ x y, x < W → y < H →
        copyToSharedTexture pixels rw rh W H dst0 x y 3 = 255) := by
  have hne : ¬(rw = W ∧ rh = H) := by omega
  refine ⟨fun x y hx hy c => ?_, fun x y hx hy hxy => ?_, fun hop x y hx hy => ?_⟩
  · have hxW : x < W := by omega
    have hyH : y < H := by omega
    simp [copyToSharedTexture, hne, copyMismatch, hx, hy, hxW, hyH]
  · simp only [copyToSharedTexture, if_neg hne, copyMismatch,
      if_pos (And.intro hx hy), if_neg hxy]
    exact ⟨by decide, by decide, by decide, by decide⟩
  · by_cases hin : x < rw ∧ y < rh
    · have e3 : swizzleIdx 3 = 3 := by decide
      simp [copyToSharedTexture, hne, copyMismatch, hx, hy, hin, e3, hop]
    · simp only [copyToSharedTexture, if_neg hne, copyMismatch,
        if_pos (And.intro hx hy), if_neg hin]
      decide

/-- Witness for C1 (amended) at the 1×1-in-2×2 instance: the pixel (1,1)
outside the rendered region is opaque black. -/
theorem c1_mismatch_copy_amended_witness :
    copyToSharedTexture srcNumbered 1 1 2 2 dstPrior 1 1 0 = 0 ∧
    copyToSharedTexture srcNumbered 1 1 2 2 dstPrior 1 1 1 = 0 ∧
    copyToSharedTexture srcNumbered 1 1 2 2 dstPrior 1 1 2 = 0 ∧
    copyToSharedTexture srcNumbered 1 1 2 2 dstPrior 1 1 3 = 255 :=
  (c1_mismatch_copy_amended srcNumbered dstPrior 1 1 2 2
      (by decide) (by decide)).2.1 1 1 (by decide) (by decide) (by decide)

/-- Counterexample to claim C4 as stated: resizing the fully successful
800×600 generation (OS handle 1) to 1024×768 with the shared-texture
recreation failing leaves the factory reporting the NEW dimensions
1024×768 — not the previous 800×600 — and `GetSharedTextureHandle` returns
null — not the previous valid handle 1 — because `SetSurfaceSize` assigns
`m_width`/`m_height` before calling `CreateSharedTexture`, which closes the
prior handle before attempting the new allocation and whose result is
ignored. -/
theorem c4_counterexample :
    (setSurfaceSize envTexFail s800 1024 768).width = 1024 ∧
    (setSurfaceSize envTexFail s800 1024 768).height = 768 ∧
    getSharedTextureHandle (setSurfaceSize envTexFail s800 1024 768) = none := by
  decide

/-- The intermediate states of `CreateSharedTexture` keep the dimensions
they were entered with, and a success re-assigns the same requested
dimensions. -/
lemma createSharedTexture_dims (env : ResizeEnv) (s : WglFactoryState) (w h : Int)
    (hsw : s.width = w) (hsh : s.height = h) :
    (createSharedTexture env s w h).1.width = w ∧
    (createSharedTexture env s w h).1.height = h := by
  unfold createSharedTexture
  by_cases h1 : env.createTexOk <;> by_cases h2 : env.exportHandleOk <;>
    by_cases h3 : env.createStagingOk <;> simp [h1, h2, h3, hsw, hsh]

/-- Claim C4 (amended): resize failures are logged and never crash, but
they do not preserve the previous generation: a failed `wglMakeCurrent`
alone leaves the state unchanged; once the draw context is current, the new
dimensions are always adopted — an incomplete framebuffer is only logged,
and changes nothing about the outcome — and a failed shared-texture
recreation leaves `GetSharedTextureHandle` returning null (the prior handle
has already been closed) rather than the previous valid handle. -/
theorem c4_resize_failure_amended (env : ResizeEnv) (s : WglFactoryState) (w h : Int)
    (hne : ¬(s.width = w ∧ s.height = h)) :
    (env.makeCurrentOk = false → setSurfaceSize env s w h = s) ∧
    (env.makeCurrentOk = true →
      (setSurfaceSize env s w h).width = w ∧
      (setSurfaceSize env s w h).height = h) ∧
    (env.makeCurrentOk = true → env.createTexOk = false →
      getSharedTextureHandle (setSurfaceSize env s w h) = none ∧
      (setSurfaceSize env s w h).sharedTexture = none ∧
      (setSurfaceSize env s w h).stagingTexture = none) ∧
    (∀ b, setSurfaceSize { env with fboComplete := b } s w h =
      setSurfaceSize env s w h) := by
  refine ⟨fun hmc => ?_, fun hmc => ?_, fun hmc hct => ?_, fun b => rfl⟩
  · simp [setSurfaceSize, hne, hmc]
  · simp only [setSurfaceSize, if_neg hne, hmc, Bool.true_eq_false,
      not_true_eq_false, if_neg, ite_false]
    exact createSharedTexture_dims env _ w h rfl rfl
  · simp [setSurfaceSize, hne, hmc, createSharedTexture, hct,
      getSharedTextureHandle]

/-- Witness for C4 (amended): a successful resize of the 800×600 generation
to 1024×768 reports the new dimensions. -/
theorem c4_resize_failure_amended_witness :
    (setSurfaceSize envAllOk s800 1024 768).width = 1024 ∧
    (setSurfaceSize envAllOk s800 1024 768).height = 768 :=
  (c4_resize_failure_amended envAllOk s800 1024 768 (by decide)).2.1 rfl

/-- Counterexample to claim C5 as stated: starting from the fully valid
800×600 generation, a failure of the handle export leaves the shared
texture valid but the handle null (the "handle valid iff texture valid"
invariant is violated), and a failure of the staging allocation leaves both
the shared texture and a fresh OS handle valid with no staging buffer — a
partially-initialized generation, not a "no valid texture" state. -/
theorem c5_counterexample :
    (createSharedTexture envExportFail s800 1024 768).2 = false ∧
    (createSharedTexture envExportFail s800 1024 768).1.sharedTexture = some 2 ∧
    getSharedTextureHandle (createSharedTexture envExportFail s800 1024 768).1 = none ∧
    (createSharedTexture envStagingFail s800 1024 768).2 = false ∧
    (createSharedTexture envStagingFail s800 1024 768).1.sharedTexture = some 2 ∧
    getSharedTextureHandle (createSharedTexture envStagingFail s800 1024 768).1 = some 2 ∧
    (createSharedTexture envStagingFail s800 1024 768).1.stagingTexture = none := by
  decide

/-- Claim C5 (amended): `CreateSharedTexture(w, h)` always closes the prior
OS handle and releases the prior shared and staging textures before
allocating replacements — afterwards every field is either empty or the
fresh allocation, never an object of the prior generation.  When the shared-
texture allocation itself fails the Manager is left with no valid texture,
handle or staging buffer; but a failure of the handle export or of the
staging allocation leaves a partially-initialized generation, signalled
only by the false return value.  On success all three are the fresh objects
and the new dimensions are recorded. -/
theorem c5_create_shared_texture_amended (env : ResizeEnv) (s : WglFactoryState)
    (w h : Int) :
    ((createSharedTexture env s w h).1.sharedHandle = none ∨
      (createSharedTexture env s w h).1.sharedHandle = some env.newHandle) ∧
    ((createSharedTexture env s w h).1.sharedTexture = none ∨
      (createSharedTexture env s w h).1.sharedTexture = some env.newTexId) ∧
    ((createSharedTexture env s w h).1.stagingTexture = none ∨
      (createSharedTexture env s w h).1.stagingTexture = some env.newStagingId) ∧
    (env.createTexOk = false →
      (createSharedTexture env s w h).1.sharedTexture = none ∧
      (createSharedTexture env s w h).1.sharedHandle = none ∧
      (createSharedTexture env s w h).1.stagingTexture = none ∧
      (createSharedTexture env s w h).2 = false) ∧
    ((createSharedTexture env s w h).2 = true →
      (createSharedTexture env s w h).1.sharedTexture = some env.newTexId ∧
      (createSharedTexture env s w h).1.sharedHandle = some env.newHandle ∧
      (createSharedTexture env s w h).1.stagingTexture = some env.newStagingId ∧
      (createSharedTexture env s w h).1.width = w ∧
      (createSharedTexture env s w h).1.height = h) := by
  unfold createSharedTexture
  by_cases h1 : env.createTexOk <;> by_cases h2 : env.exportHandleOk <;>
    by_cases h3 : env.createStagingOk <;> simp [h1, h2, h3]

/-- Witness for C5 (amended): when the shared-texture allocation fails, the
800×600 generation is left with nothing valid and a false return. -/
theorem c5_create_shared_texture_amended_witness :
    (createSharedTexture envTexFail s800 64 64).1.sharedTexture = none ∧
    (createSharedTexture envTexFail s800 64 64).1.sharedHandle = none ∧
    (createSharedTexture envTexFail s800 64 64).1.stagingTexture = none ∧
    (createSharedTexture envTexFail s800 64 64).2 = false :=
  (c5_create_shared_texture_amended envTexFail s800 64 64).2.2.2.1 rfl

/-- Counterexample to claim C9 as stated: the renderer-string queries do
not always restore exactly the prior context state.  Called with no
context current, `GetRendererName` leaves its own context current (device
context 5, GL context 7) instead of restoring the null state; called with
another context current on a different device context (DC 3, GL context 9),
it restores that GL context but selects it on its own DC 5, so the prior
(DC, context) pair is not exactly restored. -/
theorem c9_counterexample :
    getRendererNameCtx 5 7 { dc := none, glc := none } ≠
      ({ dc := none, glc := none } : GlCurrent) ∧
    getRendererNameCtx 5 7 { dc := some 3, glc := some 9 } ≠
      ({ dc := some 3, glc := some 9 } : GlCurrent) := by
  decide

/-- Claim C9 (amended): `GetRendererName` and `GetRendererVersion` first
test the currently-bound context and switch to their own context only if it
is not already current; when their context was already current the
current-context state is completely unchanged; when another context was
current, that same GL context is current again on return, though selected
through the device context owned by the factory; when no context was current, the
call leaves its own context current; the context is never unconditionally
released. -/
theorem c9_renderer_query_amended (hdc glrc : Nat) (s : GlCurrent) :
    (s.glc = some glrc →
      getRendererNameCtx hdc glrc s = s ∧ getRendererVersionCtx hdc glrc s = s) ∧
    (∀ c, s.glc = some c → c ≠ glrc →
      getRendererNameCtx hdc glrc s = { dc := some hdc, glc := some c } ∧
      getRendererVersionCtx hdc glrc s = { dc := some hdc, glc := some c }) ∧
    (s.glc = none →
      getRendererNameCtx hdc glrc s = { dc := some hdc, glc := some glrc } ∧
      getRendererVersionCtx hdc glrc s = { dc := some hdc, glc := some glrc }) ∧
    ((getRendererNameCtx hdc glrc s).glc ≠ none ∧
      (getRendererVersionCtx hdc glrc s).glc ≠ none) := by
  refine ⟨fun h => ?_, fun c hc hne => ?_, fun h => ?_, ?_⟩
  · simp [getRendererNameCtx, getRendererVersionCtx, h]
  · have hns : ¬ s.glc = some glrc := by simp [hc, hne]
    simp [getRendererNameCtx, getRendererVersionCtx, hns, hc, hne]
  · have hns : ¬ s.glc = some glrc := by simp [h]
    simp [getRendererNameCtx, getRendererVersionCtx, hns, h]
  · constructor <;>
    · rcases hg : s.glc with _ | c
      · simp [getRendererNameCtx, getRendererVersionCtx, hg]
      · by_cases hcg : c = glrc
        · subst hcg
          simp [getRendererNameCtx, getRendererVersionCtx, hg]
        · simp [getRendererNameCtx, getRendererVersionCtx, hg, hcg]

/-- Witness for C9 (amended): when the own context (GL context 7) is
already current, both queries change nothing. -/
theorem c9_renderer_query_amended_witness :
    getRendererNameCtx 5 7 { dc := some 2, glc := some 7 } =
      ({ dc := some 2, glc := some 7 } : GlCurrent) ∧
    getRendererVersionCtx 5 7 { dc := some 2, glc := some 7 } =
      ({ dc := some 2, glc := some 7 } : GlCurrent) :=
  (c9_renderer_query_amended 5 7 { dc := some 2, glc := some 7 }).1 rfl

end Agus
